import Mathlib

/-!
Shallow embedding of the Wow Store product-sync engine (src/app.py) and
proofs checking the repository's specification against it.

The embedding models the Python scalar values the engine manipulates
(`Value`), the numeric normalizer `safe_float`, the paginated catalog
fetcher `get_products` (driven by a scripted list of HTTP responses, one
consumed per request), the pandas-based reconciliation of `main`
(`mergedRows` / `unmatchedRows`), the progress values reported by the apply
loops (`progressValues`), and the mutators `update_product_variant`,
`set_inventory_level` and `create_product` (returning the Boolean outcome
together with the trace of HTTP calls issued).
-/

set_option maxRecDepth 8000
set_option autoImplicit false

namespace WowStore

/-- The result of Python's `float(...)`: a rational, or one of the special
IEEE values the engine can produce (`float("nan")`, `float("inf")`). -/
inductive PyFloat where
  | nan
  | infPos
  | infNeg
  | num (q : ℚ)
deriving DecidableEq

/-- A Python scalar as it flows through `app.py`: `None`, a float
(including `nan`/`inf`), an int, or a string. -/
inductive Value where
  | vNone
  | vNaN
  | vInf
  | vNInf
  | vFloat (q : ℚ)
  | vInt (n : ℤ)
  | vStr (s : String)
deriving DecidableEq

/-- `pd.isna` on a scalar: true exactly for `None` and float `nan`. -/
def pdIsNA : Value → Bool
  | .vNone => true
  | .vNaN => true
  | _ => false

/-- Numeric view of a value, used by Python `==` between numbers. -/
def toRat? : Value → Option ℚ
  | .vFloat q => some q
  | .vInt n => some (n : ℚ)
  | _ => none

/-- Python `==` on the modelled scalars: numeric comparison between ints and
floats, `nan` equal to nothing (itself included), everything else compared
within its own kind and `False` across kinds. -/
def pyEq (a b : Value) : Bool :=
  match toRat? a, toRat? b with
  | some x, some y => x == y
  | _, _ =>
    match a, b with
    | .vStr s, .vStr t => s == t
    | .vNone, .vNone => true
    | .vInf, .vInf => true
    | .vNInf, .vNInf => true
    | _, _ => false

/-- Python `str.strip()` on the character list: drop whitespace at both ends. -/
def pyStrip (l : List Char) : List Char :=
  ((l.dropWhile Char.isWhitespace).reverse.dropWhile Char.isWhitespace).reverse

/-- `value.replace(",", "").strip()` from `safe_float`: every comma removed,
then surrounding whitespace dropped. -/
def cleanNumString (s : String) : String :=
  ⟨pyStrip (s.data.filter fun c => c ≠ ',')⟩

/-- Leading decimal digits of a character list, and the remainder. -/
def spanDigits : List Char → List Char × List Char
  | [] => ([], [])
  | c :: cs =>
    if c.isDigit then
      let (d, r) := spanDigits cs
      (c :: d, r)
    else ([], c :: cs)

/-- The natural number a list of decimal digits denotes. -/
def natFromDigits (l : List Char) : ℕ :=
  l.foldl (fun a c => a * 10 + (c.toNat - 48)) 0

/-- `some l` when `l` is one or more decimal digits, else `none`. -/
def allDigits (l : List Char) : Option (List Char) :=
  if l ≠ [] ∧ l.all Char.isDigit then some l else none

/-- Parse the exponent suffix of a float literal; an empty remainder means
exponent `0`, anything else must be `e`/`E`, an optional sign and digits. -/
def parseExp : List Char → Option ℤ
  | [] => some 0
  | c :: cs =>
    if c = 'e' ∨ c = 'E' then
      match cs with
      | '+' :: rest => (allDigits rest).map fun l => (natFromDigits l : ℤ)
      | '-' :: rest => (allDigits rest).map fun l => -(natFromDigits l : ℤ)
      | rest => (allDigits rest).map fun l => (natFromDigits l : ℤ)
    else none

/-- The rational `m * 10 ^ e`, built from integer pieces. -/
def ratOfParts (m : ℕ) (e : ℤ) : ℚ :=
  if 0 ≤ e then mkRat (m * 10 ^ e.toNat) 1 else mkRat m (10 ^ (-e).toNat)

/-- Parse an unsigned decimal float literal: digits, an optional fraction,
an optional exponent; the whole remainder must be consumed. -/
def parseUnsignedDecimal (cs : List Char) : Option ℚ :=
  let (ip, r1) := spanDigits cs
  match r1 with
  | '.' :: r2 =>
    let (fp, r3) := spanDigits r2
    if ip = [] ∧ fp = [] then none
    else
      (parseExp r3).map fun e =>
        ratOfParts (natFromDigits ip * 10 ^ fp.length + natFromDigits fp) (e - fp.length)
  | r =>
    if ip = [] then none
    else (parseExp r).map fun e => ratOfParts (natFromDigits ip) e

/-- Model of Python `float(string)`: surrounding whitespace stripped, an
optional sign, then `nan`, `inf`/`infinity` (case-insensitive) or a decimal
literal; `none` models the `ValueError` a malformed string raises. -/
def pyFloatOfString (s : String) : Option PyFloat :=
  let cs := pyStrip s.data
  let (neg, body) :=
    match cs with
    | '+' :: t => (false, t)
    | '-' :: t => (true, t)
    | t => (false, t)
  let low := body.map Char.toLower
  if low = "nan".data then some .nan
  else if low = "inf".data ∨ low = "infinity".data then
    some (if neg then .infNeg else .infPos)
  else
    (parseUnsignedDecimal body).map fun q => .num (if neg then -q else q)

/-- Model of Python `float(value)` on a scalar; `none` models an exception. -/
def pyFloat : Value → Option PyFloat
  | .vFloat q => some (.num q)
  | .vNaN => some .nan
  | .vInf => some .infPos
  | .vNInf => some .infNeg
  | .vInt n => some (.num (n : ℚ))
  | .vStr s => pyFloatOfString s
  | .vNone => none

/-- The value a `PyFloat` stands for. -/
def PyFloat.toValue : PyFloat → Value
  | .nan => .vNaN
  | .infPos => .vInf
  | .infNeg => .vNInf
  | .num q => .vFloat q

/-- The comma-strip-and-trim `safe_float` applies to string input before
parsing; other values pass through untouched. -/
def cleanValue : Value → Value
  | .vStr s => .vStr (cleanNumString s)
  | v => v

/-- Model of `ShopifyProductSync.safe_float(value, default)` from
src/app.py lines 102-111: `default` when `pd.isna(value)` or `value == ''`
holds, otherwise commas and surrounding whitespace are removed from string
input and `float(...)` is attempted, any parse failure giving `default`. -/
def safe_float (value default : Value) : Value :=
  if pdIsNA value || pyEq value (.vStr "") then default
  else
    match pyFloat (cleanValue value) with
    | some f => f.toValue
    | none => default

/-! ## Catalog fetch (ShopifyProductSync.get_products, lines 155-202) -/

/-- One variant inside a product payload returned by `GET /products`. -/
structure ShopVariant where
  id : ℕ
  price : Option ℚ
  sku : Option String
  inventory_quantity : Option ℤ
  inventory_item_id : Option ℕ
deriving DecidableEq

/-- One product payload returned by `GET /products`. -/
structure ShopProduct where
  id : ℕ
  title : Option String
  status : Option String
  created_at : Option String
  updated_at : Option String
  variants : List ShopVariant
deriving DecidableEq

/-- One row of the DataFrame built by `process_products_to_dataframe`. -/
structure VariantRecord where
  product_id : ℕ
  title : Option String
  variant_id : ℕ
  price : ℚ
  sku : Option String
  inventory_quantity : Option ℤ
  inventory_item_id : Option ℕ
  created_at : Option String
  updated_at : Option String
  status : String
deriving DecidableEq

/-- The row `process_products_to_dataframe` builds for one variant of one
product: every field is copied from the payload, `price` through
`float(variant.get('price', 0))` and `status` through
`product.get('status', 'active')`. -/
def recordOfVariant (p : ShopProduct) (v : ShopVariant) : VariantRecord :=
  { product_id := p.id
    title := p.title
    variant_id := v.id
    price := v.price.getD 0
    sku := v.sku
    inventory_quantity := v.inventory_quantity
    inventory_item_id := v.inventory_item_id
    created_at := p.created_at
    updated_at := p.updated_at
    status := p.status.getD "active" }

/-- Model of `ShopifyProductSync.process_products_to_dataframe` (lines
76-100): one row per variant, products in order, variants in order. -/
def process_products_to_dataframe (products : List ShopProduct) : List VariantRecord :=
  products.flatMap fun p => p.variants.map (recordOfVariant p)

/-- The opaque query parameters of one `GET /products` request (`limit` on
the first request, afterwards whatever the `rel="next"` link encodes). -/
structure Params where
  cursor : ℕ
deriving DecidableEq

/-- One scripted HTTP response for the paging loop: its status code, the
decoded `products` array, the parsed parameters of the `rel="next"` link
(`none` when the header has no next entry or its parsing fails, both of
which break the loop), and the `Retry-After` header. -/
structure PageResponse where
  status : ℕ
  products : List ShopProduct
  nextParams : Option Params
  retryAfter : Option ℕ
deriving DecidableEq

/-- Outcome of `get_products`: the flattened records, or the exception
`response.raise_for_status()` raises on a 4xx/5xx status (re-raised by the
surrounding handler), or the mock script running out of responses. -/
inductive FetchResult where
  | ok (records : List VariantRecord)
  | httpError (status : ℕ)
  | exhausted
deriving DecidableEq

/-- The paging loop of `get_products` (lines 162-196) against a scripted
response sequence, one response consumed per HTTP request. Returns the
outcome together with the list of sleep durations performed, in order: `1/2`
second between successful pages, `Retry-After` (default 10) seconds after a
429. On a status that is neither 200 nor 429, `raise_for_status()` aborts
for 4xx/5xx (status 400 to 599) and is a no-op for any other status, in
which case the loop body just ends and the same request is reissued. -/
def getProductsGo : List ShopProduct → Params → List PageResponse → FetchResult × List ℚ
  | _, _, [] => (.exhausted, [])
  | acc, params, r :: rest =>
    if r.status = 200 then
      match r.nextParams with
      | none => (.ok (process_products_to_dataframe (acc ++ r.products)), [])
      | some p =>
        let next := getProductsGo (acc ++ r.products) p rest
        (next.1, mkRat 1 2 :: next.2)
    else if r.status = 429 then
      let next := getProductsGo acc params rest
      (next.1, ((r.retryAfter.getD 10 : ℕ) : ℚ) :: next.2)
    else if 400 ≤ r.status ∧ r.status < 600 then
      (.httpError r.status, [])
    else
      getProductsGo acc params rest

/-- Model of `ShopifyProductSync.get_products`: run the paging loop from an
empty accumulator and the initial `limit`-only parameters. -/
def get_products (script : List PageResponse) : FetchResult × List ℚ :=
  getProductsGo [] ⟨0⟩ script

/-! ## Reconciliation and progress reporting (main, lines 264-326) -/

/-- One row of the uploaded external sheet after the cleanup in `main`:
the raw search key, `Sales Price` and the available quantity after
`safe_float`, the product name, and the stripped brand. -/
structure ExtRow where
  searchKey : Option String
  salesPrice : Value
  availableQty : Value
  productName : String
  brand : String
deriving DecidableEq

/-- `df.merge(external_df, left_on='sku', right_on='اسم البحث',
how='inner')`: one row per matching (catalog row, external row) pair, in
catalog (left-frame) order, each catalog row joined with its matching
external rows in their input order; keys are compared for raw equality. -/
def mergedRows (catalog : List VariantRecord) (external : List ExtRow) :
    List (VariantRecord × ExtRow) :=
  catalog.flatMap fun v => (external.filter fun r => r.searchKey == v.sku).map fun r => (v, r)

/-- `external_df[~external_df['اسم البحث'].isin(df['sku'])]`, keeping each
row's original label: the external rows, with their positions in the input
frame, whose key equals no catalog sku. -/
def unmatchedRowsEnum (catalog : List VariantRecord) (external : List ExtRow) :
    List (ℕ × ExtRow) :=
  external.enum.filter fun ir => !(catalog.any fun v => v.sku == ir.2.searchKey)

/-- The unmatched external rows themselves (create candidates). -/
def unmatchedRows (catalog : List VariantRecord) (external : List ExtRow) : List ExtRow :=
  external.filter fun r => !(catalog.any fun v => v.sku == r.searchKey)

/-- The successive values handed to `progress_bar.progress` by the two apply
loops of `main` (lines 290-310): `(index + 1) / total_operations` for each
merged row (`index` is the merge result's fresh 0-based range index) and
`(len(merged_df) + index + 1) / total_operations` for each unmatched row,
where `index` is the row's original label in the external frame. -/
def progressValues (catalog : List VariantRecord) (external : List ExtRow) : List ℚ :=
  let m := (mergedRows catalog external).length
  let u := unmatchedRowsEnum catalog external
  let total : ℚ := ((m + u.length : ℕ) : ℚ)
  ((List.range m).map fun i => (((i + 1 : ℕ) : ℚ)) / total)
    ++ u.map fun ir => (((m + ir.1 + 1 : ℕ) : ℚ)) / total

/-! ## Mutators (set_inventory_level, update_product_variant, create_product) -/

/-- Python `int()` on a float: truncation toward zero. -/
def pyInt (q : ℚ) : ℤ :=
  if 0 ≤ q then ⌊q⌋ else ⌈q⌉

/-- Python `int()` on a scalar `Value`; `none` models the exception raised
on `nan`, infinities, `None` and non-numeric strings. -/
def pyIntOfValue : Value → Option ℤ
  | .vFloat q => some (pyInt q)
  | .vInt n => some n
  | _ => none

/-- One HTTP call issued by the mutators, with the status the remote
returned for it. -/
inductive ApiCall where
  | getVariant (variantId : ℕ) (status : ℕ)
  | putPrice (variantId : ℕ) (price : Value) (status : ℕ)
  | setInventory (locationId : ℕ) (inventoryItemId : ℕ) (available : ℤ) (status : ℕ)
  | postProduct (status : ℕ)
deriving DecidableEq

/-- Whether a call is the inventory-set POST. -/
def ApiCall.isSetInventory : ApiCall → Bool
  | .setInventory .. => true
  | _ => false

/-- Whether a call is the price PUT. -/
def ApiCall.isPutPrice : ApiCall → Bool
  | .putPrice .. => true
  | _ => false

/-- The remote side's behavior during one record's processing: the status
each endpoint answers with, and the inventory item id the variant lookup
returns. -/
structure RemoteCtx where
  variantGetStatus : ℕ
  inventoryItemId : ℕ
  pricePutStatus : ℕ
  inventorySetStatus : ℕ
  productPostStatus : ℕ
deriving DecidableEq

/-- Model of `ShopifyProductSync.set_inventory_level` (lines 50-74): `False`
without a location id; otherwise the payload carries
`available = int(new_quantity)` and success is a 200 on the POST. `none`
models the exception `int(new_quantity)` raises before any request, which
escapes this method (its `try` only wraps the POST). -/
def set_inventory_level (locationId : Option ℕ) (ctx : RemoteCtx)
    (inventoryItemId : ℕ) (newQuantity : Value) : Option (Bool × List ApiCall) :=
  match locationId with
  | none => some (false, [])
  | some loc =>
    match pyIntOfValue newQuantity with
    | none => none
    | some n =>
      some (ctx.inventorySetStatus == 200,
        [ApiCall.setInventory loc inventoryItemId n ctx.inventorySetStatus])

/-- Model of `ShopifyProductSync.update_product_variant` (lines 113-153):
fetch the variant (abort on non-200), `PUT` the price (abort on non-200),
then set the inventory; the broad `except` turns any escaped exception into
`False`. Returns the outcome and the trace of calls issued. -/
def update_product_variant (locationId : Option ℕ) (ctx : RemoteCtx)
    (variantId : ℕ) (newPrice newInventory : Value) : Bool × List ApiCall :=
  let getCall := ApiCall.getVariant variantId ctx.variantGetStatus
  if ctx.variantGetStatus ≠ 200 then (false, [getCall])
  else
    let priceCall := ApiCall.putPrice variantId (safe_float newPrice (.vInt 0)) ctx.pricePutStatus
    if ctx.pricePutStatus ≠ 200 then (false, [getCall, priceCall])
    else
      match set_inventory_level locationId ctx ctx.inventoryItemId newInventory with
      | none => (false, [getCall, priceCall])
      | some (ok, calls) => (ok, getCall :: priceCall :: calls)

/-- The `POST /products` payload `create_product` builds (lines 210-224). -/
structure NewProductPayload where
  title : String
  status : String
  vendor : String
  sku : Option String
  price : Value
  inventory_quantity : ℤ
  inventory_management : String
  inventory_policy : String
  requires_shipping : Bool
deriving DecidableEq

/-- Model of `ShopifyProductSync.create_product` (lines 204-231): price
through `safe_float`, inventory through `int(safe_float(...))` (whose
exception, modelled as `none`, escapes — there is no `try` here), a draft
product with tracking enabled and an oversell-deny policy; the result is
truthy exactly on a 201. -/
def create_product (ctx : RemoteCtx) (title : String) (sku : Option String)
    (price inventory : Value) (brand : String) : Option (Bool × NewProductPayload) :=
  match pyIntOfValue (safe_float inventory (.vInt 0)) with
  | none => none
  | some n =>
    some (ctx.productPostStatus == 201,
      { title := title
        status := "draft"
        vendor := brand.trim
        sku := sku
        price := safe_float price (.vInt 0)
        inventory_quantity := n
        inventory_management := "shopify"
        inventory_policy := "deny"
        requires_shipping := true })

/-- The update loop of `main` (lines 290-304): one `update_product_variant`
call per merged row, in order, a warning on failure and never a break; row
`i` of the batch runs against remote behavior `env i`. -/
def runUpdateLoop (locationId : Option ℕ) (env : ℕ → RemoteCtx) :
    ℕ → List (VariantRecord × ExtRow) → List Bool
  | _, [] => []
  | i, (v, r) :: rest =>
    (update_product_variant locationId (env i) v.variant_id r.salesPrice r.availableQty).1
      :: runUpdateLoop locationId env (i + 1) rest

/-! ## Concrete fixtures used by counterexamples and witnesses -/

/-- A variant whose price decodes to exactly 0 but with stock on hand. -/
def zeroPriceVariant : ShopVariant := ⟨2, some 0, some "S1", some 5, some 30⟩

/-- An active product carrying `zeroPriceVariant`. -/
def zeroPriceProduct : ShopProduct := ⟨1, some "Tee", some "active", none, none, [zeroPriceVariant]⟩

/-- A catalog row with sku `A1`. -/
def vA1 : VariantRecord := ⟨1, some "T", 2, mkRat 10 1, some "A1", some 5, some 3, none, none, "active"⟩

/-- A catalog row with sku `B1`. -/
def vB1 : VariantRecord := ⟨4, some "U", 5, mkRat 7 1, some "B1", some 2, some 6, none, none, "active"⟩

/-- An external row whose key matches `vA1` exactly. -/
def rA1 : ExtRow := ⟨some "A1", .vFloat (mkRat 12 1), .vFloat (mkRat 8 1), "P1", "B1"⟩

/-- An external row whose key matches `vB1` exactly. -/
def rB1 : ExtRow := ⟨some "B1", .vFloat (mkRat 9 1), .vFloat (mkRat 4 1), "P3", "B3"⟩

/-- An external row matching no catalog sku. -/
def rB2 : ExtRow := ⟨some "B2", .vFloat (mkRat 20 1), .vFloat (mkRat 3 1), "P2", "B2"⟩

/-- An external row whose key differs from `vA1`'s sku only by a leading
space. -/
def rA1ws : ExtRow := ⟨some " A1", .vFloat (mkRat 12 1), .vFloat (mkRat 8 1), "P1", "B1"⟩

/-- A scripted 200 response carrying `zeroPriceProduct`, with no next page. -/
def finalPage : PageResponse := ⟨200, [zeroPriceProduct], none, none⟩

/-- A scripted 304 response: non-2xx, not 429, below 400. -/
def page304 : PageResponse := ⟨304, [], none, none⟩

/-! ## Helper lemmas -/

theorem mem_mergedRows {c : List VariantRecord} {e : List ExtRow}
    {v : VariantRecord} {r : ExtRow} :
    (v, r) ∈ mergedRows c e ↔ v ∈ c ∧ r ∈ e ∧ r.searchKey = v.sku := by
  simp only [mergedRows, List.mem_flatMap, List.mem_map, List.mem_filter, beq_iff_eq,
    Prod.mk.injEq]
  constructor
  · rintro ⟨v', hv', r', ⟨hr', hk⟩, hveq, hreq⟩
    subst hveq; subst hreq
    exact ⟨hv', hr', hk⟩
  · rintro ⟨hv, hr, hk⟩
    exact ⟨v, hv, r, ⟨hr, hk⟩, rfl, rfl⟩

theorem mem_unmatchedRows {c : List VariantRecord} {e : List ExtRow} {r : ExtRow} :
    r ∈ unmatchedRows c e ↔ r ∈ e ∧ ∀ v ∈ c, v.sku ≠ r.searchKey := by
  simp [unmatchedRows, List.mem_filter, List.any_eq_true]

theorem sum_map_add (l : List ExtRow) (f g : ExtRow → ℕ) :
    (l.map fun x => f x + g x).sum = (l.map f).sum + (l.map g).sum := by
  induction l with
  | nil => simp
  | cons a l ih => simp [ih]; omega

theorem sum_map_ite (l : List ExtRow) (p : ExtRow → Bool) :
    (l.map fun x => if p x then 1 else 0).sum = l.countP p := by
  induction l with
  | nil => simp
  | cons a l ih =>
    simp only [List.map_cons, List.sum_cons, List.countP_cons, ih]
    omega

theorem sum_comm_countP (c : List VariantRecord) (e : List ExtRow)
    (p : VariantRecord → ExtRow → Bool) :
    (c.map fun v => e.countP (p v)).sum = (e.map fun r => c.countP fun v => p v r).sum := by
  induction c with
  | nil => simp
  | cons v c ih =>
    simp only [List.map_cons, List.sum_cons, ih, List.countP_cons]
    rw [show (e.map fun r => (List.countP (fun v => p v r) c) + if p v r then 1 else 0)
          = e.map fun r => (fun r => List.countP (fun v => p v r) c) r
              + (fun r => if p v r then 1 else 0) r from rfl,
      sum_map_add, sum_map_ite]
    omega

theorem countP_sku_of_nodup {c : List VariantRecord}
    (h : (c.map fun v => v.sku).Nodup) (k : Option String) :
    (c.countP fun v => k == v.sku) = if c.any fun v => v.sku == k then 1 else 0 := by
  induction c with
  | nil => simp
  | cons v c ih =>
    have h1 : v.sku ∉ c.map fun v => v.sku := (List.nodup_cons.mp h).1
    have h2 := (List.nodup_cons.mp h).2
    by_cases hv : v.sku = k
    · have hz : (c.countP fun v => k == v.sku) = 0 := by
        rw [List.countP_eq_zero]
        intro v' hv' hk
        exact h1 (hv ▸ (beq_iff_eq.mp hk).symm ▸ List.mem_map_of_mem _ hv')
      simp [List.countP_cons, List.any_cons, hv, hz]
    · have hv2 : ¬ v.sku == k := by simpa using hv
      have hv3 : ¬ k == v.sku := by simpa using fun hh => hv hh.symm
      simp [List.countP_cons, List.any_cons, hv2, hv3, ih h2]

theorem mergedRows_length (c : List VariantRecord) (e : List ExtRow) :
    (mergedRows c e).length
      = (c.map fun v => e.countP fun r => r.searchKey == v.sku).sum := by
  simp [mergedRows, List.length_flatMap, List.countP_eq_length_filter, Function.comp_def,
    List.length_map]

/-! ## C3: reconciliation partition -/

/-- C3: reconciliation places each external record in exactly one of the
matched pairs or the unmatched set — a record is paired with some catalog
variant exactly when it is absent from the unmatched rows — and when the
catalog's skus are pairwise distinct, the number of matched pairs plus the
number of unmatched rows equals the number of external records. -/
theorem c3_reconciliation_partition (c : List VariantRecord) (e : List ExtRow) :
    (∀ r ∈ e, ((∃ v, (v, r) ∈ mergedRows c e) ↔ r ∉ unmatchedRows c e))
    ∧ ((c.map fun v => v.sku).Nodup →
        (mergedRows c e).length + (unmatchedRows c e).length = e.length) := by
  constructor
  · intro r hr
    constructor
    · rintro ⟨v, hv⟩ hu
      rcases mem_mergedRows.mp hv with ⟨hvc, -, hk⟩
      exact (mem_unmatchedRows.mp hu).2 v hvc hk.symm
    · intro hu
      by_contra hno
      push_neg at hno
      refine hu (mem_unmatchedRows.mpr ⟨hr, ?_⟩)
      intro v hv hk
      exact hno v (mem_mergedRows.mpr ⟨hv, hr, hk.symm⟩)
  · intro hnd
    have e1 : (mergedRows c e).length
        = (e.map fun r => c.countP fun v => r.searchKey == v.sku).sum := by
      rw [mergedRows_length, sum_comm_countP c e fun v r => r.searchKey == v.sku]
    have e2 : ∀ r : ExtRow,
        (c.countP fun v => r.searchKey == v.sku)
          = if c.any fun v => v.sku == r.searchKey then 1 else 0 :=
      fun r => countP_sku_of_nodup hnd r.searchKey
    have e3 : (mergedRows c e).length
        = e.countP fun r => c.any fun v => v.sku == r.searchKey := by
      rw [e1]
      rw [show (e.map fun r => c.countP fun v => r.searchKey == v.sku)
            = e.map fun r => if c.any fun v => v.sku == r.searchKey then 1 else 0 from
          List.map_congr_left fun r _ => e2 r]
      exact sum_map_ite e _
    rw [e3, unmatchedRows, List.countP_eq_length_filter]
    exact (List.length_eq_length_filter_add
      fun r : ExtRow => c.any fun v => v.sku == r.searchKey).symm

/-! ## C4: key normalization before matching -/

/-- C4 counterexample: the catalog sku `A1` and the external search key
` A1` differ only by surrounding whitespace, yet reconciliation pairs
nothing and routes the record to the unmatched (create) set — the claimed
whitespace normalization does not happen. -/
theorem c4_whitespace_counterexample :
    mergedRows [vA1] [rA1ws] = [] ∧ unmatchedRows [vA1] [rA1ws] = [rA1ws]
      ∧ vA1.sku = some "A1" ∧ rA1ws.searchKey = some " A1" := by
  refine ⟨by decide, by decide, rfl, rfl⟩

/-- C4 amended: matching compares the catalog variant's raw sku and the
external record's raw search key for exact equality — no trimming and no
internal-whitespace removal — so a pair is produced exactly when the two
stored keys are equal. -/
theorem c4_raw_key_matching (c : List VariantRecord) (e : List ExtRow)
    (v : VariantRecord) (r : ExtRow) :
    (v, r) ∈ mergedRows c e ↔ v ∈ c ∧ r ∈ e ∧ r.searchKey = v.sku :=
  mem_mergedRows

/-! ## C9: ordering of the reconciliation output -/

/-- C9 counterexample: with catalog order `[vB1, vA1]` and external order
`[rA1, rB1]`, the matched rows come out in catalog order — external record
`rB1` first — not in the external input order the claim states. -/
theorem c9_order_counterexample :
    (mergedRows [vB1, vA1] [rA1, rB1]).map Prod.snd = [rB1, rA1]
      ∧ ([rB1, rA1] : List ExtRow) ≠ [rA1, rB1] := by
  refine ⟨by decide, by decide⟩

/-- C9 amended: reconciliation is deterministic (a pure function of its
inputs), the unmatched output preserves the external input ordering, and the
matched output is ordered by the catalog input ordering: pairs of an earlier
catalog segment precede pairs of a later one, and one catalog variant's
matches appear in external input order. -/
theorem c9_stable_partition (c₁ c₂ : List VariantRecord) (e : List ExtRow)
    (v : VariantRecord) :
    mergedRows (c₁ ++ c₂) e = mergedRows c₁ e ++ mergedRows c₂ e
    ∧ ((mergedRows [v] e).map Prod.snd).Sublist e
    ∧ (unmatchedRows c₁ e).Sublist e := by
  refine ⟨List.flatMap_append .., ?_, List.filter_sublist _⟩
  have h1 : (mergedRows [v] e).map Prod.snd = e.filter fun r => r.searchKey == v.sku := by
    simp [mergedRows, List.map_map, Function.comp]
  rw [h1]
  exact List.filter_sublist _

/-! ## C1: no zero-price correction during the fetch -/

/-- C1 counterexample: a fetched variant whose price is exactly 0 comes back
with its stock (5) and its product's status (`active`) untouched — not with
`inventory_quantity = 0` and `status = draft` as the claim states, and no
corrective write exists anywhere in the fetch path. -/
theorem c1_zero_price_counterexample :
    (get_products [finalPage]).1 = .ok [recordOfVariant zeroPriceProduct zeroPriceVariant]
    ∧ (recordOfVariant zeroPriceProduct zeroPriceVariant).price = 0
    ∧ (recordOfVariant zeroPriceProduct zeroPriceVariant).inventory_quantity = some 5
    ∧ (recordOfVariant zeroPriceProduct zeroPriceVariant).status = "active"
    ∧ some (5 : ℤ) ≠ some 0 ∧ "active" ≠ "draft" := by
  exact ⟨by decide, by decide, by decide, by decide, by decide, by decide⟩

/-- C1 amended: the fetch returns each variant's record verbatim —
`inventory_quantity` and `status` are copied unchanged from the remote
payload (status defaulting to `active` when absent) and `price` is the
decoded price — even when the price is exactly 0; no remote correction is
issued as part of the fetch. -/
theorem c1_fetch_passthrough (ps : List ShopProduct) (p : ShopProduct) (v : ShopVariant)
    (hp : p ∈ ps) (hv : v ∈ p.variants) :
    recordOfVariant p v ∈ process_products_to_dataframe ps
    ∧ (recordOfVariant p v).inventory_quantity = v.inventory_quantity
    ∧ (recordOfVariant p v).status = p.status.getD "active"
    ∧ (recordOfVariant p v).price = v.price.getD 0 :=
  ⟨List.mem_flatMap.mpr ⟨p, hp, List.mem_map_of_mem _ hv⟩, rfl, rfl, rfl⟩

/-- C1 witness: the pass-through theorem applied to the zero-price fixture. -/
theorem c1_fetch_passthrough_witness :
    recordOfVariant zeroPriceProduct zeroPriceVariant
        ∈ process_products_to_dataframe [zeroPriceProduct]
    ∧ (recordOfVariant zeroPriceProduct zeroPriceVariant).inventory_quantity
        = zeroPriceVariant.inventory_quantity
    ∧ (recordOfVariant zeroPriceProduct zeroPriceVariant).status
        = zeroPriceProduct.status.getD "active"
    ∧ (recordOfVariant zeroPriceProduct zeroPriceVariant).price
        = zeroPriceVariant.price.getD 0 :=
  c1_fetch_passthrough [zeroPriceProduct] zeroPriceProduct zeroPriceVariant
    (by decide) (by decide)

/-! ## C2: progress values of the apply phase -/

/-- C2 evaluation at the failing input: with one matched row followed by one
unmatched row, the reported progress values are `[1/2, 3/2]` — the second
value exceeds 1 and the final value is not `1.0`, because the create loop
divides the row's original frame label, not its rank among the creates. -/
theorem c2_progress_failing_eval :
    progressValues [vA1] [rA1, rB2] = [mkRat 1 2, mkRat 3 2]
    ∧ ¬ ((mkRat 3 2 : ℚ) ≤ 1)
    ∧ (progressValues [vA1] [rA1, rB2]).getLast? = some (mkRat 3 2)
    ∧ (mkRat 3 2 : ℚ) ≠ 1 := by
  exact ⟨by with_unfolding_all decide, by with_unfolding_all decide,
    by with_unfolding_all decide, by with_unfolding_all decide⟩

/-! ## C5: 429 handling in the fetch loop -/

/-- C5: on a 429 the fetch loop sleeps for `Retry-After` seconds (10 when
the header is absent) and reissues the same request without advancing, so
the run's outcome equals the outcome of the run without the 429 — no record
lost or duplicated — with only the backoff sleep prepended. -/
theorem c5_rate_limit_retry (acc : List ShopProduct) (params : Params)
    (prods : List ShopProduct) (np : Option Params) (ra : Option ℕ)
    (rest : List PageResponse) :
    getProductsGo acc params (⟨429, prods, np, ra⟩ :: rest)
      = ((getProductsGo acc params rest).1,
          ((ra.getD 10 : ℕ) : ℚ) :: (getProductsGo acc params rest).2) := by
  simp [getProductsGo]

/-! ## C6: non-2xx handling in the fetch loop -/

/-- C6 counterexample: a 304 response — non-2xx and not 429 — does not abort
the fetch with a retrieval error (`raise_for_status` is a no-op below 400):
the loop silently reissues the request and the run still succeeds with the
next page's records; a 999 response, outside `raise_for_status`'s 400-599
range, behaves the same way. -/
theorem c6_status_304_counterexample :
    page304.status = 304
    ∧ (get_products [page304, finalPage]).1
        = .ok [recordOfVariant zeroPriceProduct zeroPriceVariant]
    ∧ (∀ s, (get_products [page304, finalPage]).1 ≠ .httpError s)
    ∧ (get_products [(⟨999, [], none, none⟩ : PageResponse), finalPage]).1
        = .ok [recordOfVariant zeroPriceProduct zeroPriceVariant] := by
  refine ⟨rfl, by decide, ?_, by decide⟩
  intro s h
  rw [show (get_products [page304, finalPage]).1
      = .ok [recordOfVariant zeroPriceProduct zeroPriceVariant] from by decide] at h
  exact FetchResult.noConfusion h

/-- C6 amended: a response with a status in `raise_for_status`'s raising
range — 400 to 599 — other than 429 aborts the whole fetch with a retrieval
error carrying that status, and the pages already accumulated are discarded
(the result carries no records, whatever the accumulator held); any other
non-2xx status (below 400 or at 600 and above) instead reissues the same
request. -/
theorem c6_http_error_aborts (acc : List ShopProduct) (params : Params)
    (r : PageResponse) (rest : List PageResponse)
    (h200 : r.status ≠ 200) (h429 : r.status ≠ 429)
    (h400 : 400 ≤ r.status) (h600 : r.status < 600) :
    getProductsGo acc params (r :: rest) = (.httpError r.status, []) := by
  simp [getProductsGo, h200, h429, h400, h600]

/-- C6 witness: a 500 response aborts immediately, discarding the page
already accumulated. -/
theorem c6_http_error_aborts_witness :
    getProductsGo [zeroPriceProduct] ⟨0⟩ [⟨500, [], none, none⟩]
      = (.httpError 500, []) :=
  c6_http_error_aborts [zeroPriceProduct] ⟨0⟩ ⟨500, [], none, none⟩ []
    (by decide) (by decide) (by decide) (by decide)

/-! ## C7: two-step update, fail-open batch -/

theorem runUpdateLoop_length (loc : Option ℕ) (env : ℕ → RemoteCtx) :
    ∀ (i : ℕ) (prs : List (VariantRecord × ExtRow)),
      (runUpdateLoop loc env i prs).length = prs.length
  | _, [] => rfl
  | i, (v, r) :: rest => by
    simp [runUpdateLoop, runUpdateLoop_length loc env (i + 1) rest]

theorem runUpdateLoop_get? (loc : Option ℕ) (env : ℕ → RemoteCtx) :
    ∀ (i : ℕ) (prs : List (VariantRecord × ExtRow)) (j : ℕ),
      (runUpdateLoop loc env i prs).get? j
        = (prs.get? j).map fun vr =>
            (update_product_variant loc (env (i + j))
              vr.1.variant_id vr.2.salesPrice vr.2.availableQty).1
  | _, [], j => by simp [runUpdateLoop]
  | i, (v, r) :: rest, 0 => by simp [runUpdateLoop]
  | i, (v, r) :: rest, j + 1 => by
    have ih := runUpdateLoop_get? loc env (i + 1) rest j
    simp only [runUpdateLoop, List.get?_cons_succ, ih]
    rw [show i + 1 + j = i + (j + 1) by omega]

/-- C7: per matched pair, the update issues the price PUT before the
inventory set (no inventory call ever precedes a price call in the trace),
reports success exactly when the trace contains a price PUT answered 200 and
an inventory set answered 200, and the batch loop never aborts: it produces
one outcome per pair, each depending only on that pair's own remote
exchange. -/
theorem c7_update_two_step (loc : Option ℕ) (ctx : RemoteCtx) (vid : ℕ)
    (price inv : Value) (env : ℕ → RemoteCtx) (i : ℕ)
    (prs : List (VariantRecord × ExtRow)) :
    ((update_product_variant loc ctx vid price inv).2.Pairwise
        fun a b => ¬ (a.isSetInventory = true ∧ b.isPutPrice = true))
    ∧ ((update_product_variant loc ctx vid price inv).1 = true ↔
        ((∃ p s, ApiCall.putPrice vid p s
              ∈ (update_product_variant loc ctx vid price inv).2 ∧ s = 200)
          ∧ ∃ l it n s, ApiCall.setInventory l it n s
              ∈ (update_product_variant loc ctx vid price inv).2 ∧ s = 200))
    ∧ (runUpdateLoop loc env i prs).length = prs.length
    ∧ ∀ j, (runUpdateLoop loc env i prs).get? j
        = (prs.get? j).map fun vr =>
            (update_product_variant loc (env (i + j))
              vr.1.variant_id vr.2.salesPrice vr.2.availableQty).1 := by
  refine ⟨?_, ?_, runUpdateLoop_length loc env i prs, runUpdateLoop_get? loc env i prs⟩
  · by_cases h1 : ctx.variantGetStatus = 200
    · by_cases h2 : ctx.pricePutStatus = 200
      · rcases loc with _ | l
        · simp [update_product_variant, set_inventory_level, h1, h2,
            ApiCall.isSetInventory, ApiCall.isPutPrice]
        · rcases hpi : pyIntOfValue inv with _ | n <;>
            simp [update_product_variant, set_inventory_level, h1, h2, hpi,
              ApiCall.isSetInventory, ApiCall.isPutPrice]
      · simp [update_product_variant, h1, h2, ApiCall.isSetInventory, ApiCall.isPutPrice]
    · simp [update_product_variant, h1, ApiCall.isSetInventory, ApiCall.isPutPrice]
  · by_cases h1 : ctx.variantGetStatus = 200
    · by_cases h2 : ctx.pricePutStatus = 200
      · rcases loc with _ | l
        · simp [update_product_variant, set_inventory_level, h1, h2]
        · rcases hpi : pyIntOfValue inv with _ | n
          · simp [update_product_variant, set_inventory_level, h1, h2, hpi]
          · simp [update_product_variant, set_inventory_level, h1, h2, hpi, beq_iff_eq]
            exact eq_comm
      · simp [update_product_variant, h1, h2]
    · simp [update_product_variant, h1]

/-! ## C8: safe_float equations and idempotence -/

/-- `safe_float` returns either its default or the value of the float it
parsed. -/
theorem safe_float_shape (x d : Value) :
    safe_float x d = d ∨ ∃ f : PyFloat, safe_float x d = f.toValue := by
  unfold safe_float
  split
  · exact Or.inl rfl
  · rcases h : pyFloat (cleanValue x) with _ | f
    · simp [h]
    · exact Or.inr ⟨f, by simp [h]⟩

/-- C8 counterexample: the string `nan` parses to the float `nan`, so
`safe_float` returns `nan`; applying `safe_float` again yields the default
`0` instead, and Python `==` between the two applications is `False` — the
claimed idempotence for every input fails. -/
theorem c8_nan_counterexample :
    safe_float (.vStr "nan") (.vInt 0) = .vNaN
    ∧ safe_float (safe_float (.vStr "nan") (.vInt 0)) (.vInt 0) = .vInt 0
    ∧ pyEq (safe_float (safe_float (.vStr "nan") (.vInt 0)) (.vInt 0))
        (safe_float (.vStr "nan") (.vInt 0)) = false := by
  exact ⟨by decide, by decide, by decide⟩

/-- C8 amended: the stated equations hold — `"1,234.50"` parses to
`1234.50` with the comma stripped, null and blank input give the default,
a parse failure gives the default without raising (the function is total) —
and `safe_float` with the default `0` is idempotent under Python `==` for
every input whose normalization is not `nan`; only inputs normalizing to
`nan` (such as the string `"nan"`) break idempotence. -/
theorem c8_safe_float_spec (x d : Value)
    (hne : safe_float x (.vInt 0) ≠ .vNaN) :
    safe_float (.vStr "1,234.50") (.vInt 0) = .vFloat (mkRat 2469 2)
    ∧ (mkRat 2469 2 : ℚ) = 1234.50
    ∧ safe_float .vNone d = d
    ∧ safe_float (.vStr "") d = d
    ∧ safe_float (.vStr "abc") (.vInt 0) = .vInt 0
    ∧ safe_float (.vStr " 12 ") (.vInt 0) = .vFloat (mkRat 12 1)
    ∧ pyEq (safe_float (safe_float x (.vInt 0)) (.vInt 0))
        (safe_float x (.vInt 0)) = true := by
  refine ⟨by decide, ?_, rfl, rfl, by decide, by decide, ?_⟩
  · rw [Rat.mkRat_eq_div]; norm_num
  · rcases safe_float_shape x (.vInt 0) with h | ⟨f, h⟩
    · rw [h]; with_unfolding_all decide
    · rw [h] at hne ⊢
      cases f with
      | nan => exact absurd rfl hne
      | infPos => decide
      | infNeg => decide
      | num q =>
        show pyEq (safe_float (.vFloat q) (.vInt 0)) (.vFloat q) = true
        simp [safe_float, pdIsNA, pyEq, toRat?, cleanValue, pyFloat, PyFloat.toValue]

/-- C8 witness: the amended statement at the concrete input `"7"`. -/
theorem c8_safe_float_spec_witness :
    safe_float (.vStr "1,234.50") (.vInt 0) = .vFloat (mkRat 2469 2)
    ∧ (mkRat 2469 2 : ℚ) = 1234.50
    ∧ safe_float .vNone (.vInt 3) = .vInt 3
    ∧ safe_float (.vStr "") (.vInt 3) = .vInt 3
    ∧ safe_float (.vStr "abc") (.vInt 0) = .vInt 0
    ∧ safe_float (.vStr " 12 ") (.vInt 0) = .vFloat (mkRat 12 1)
    ∧ pyEq (safe_float (safe_float (.vStr "7") (.vInt 0)) (.vInt 0))
        (safe_float (.vStr "7") (.vInt 0)) = true :=
  c8_safe_float_spec (.vStr "7") (.vInt 3) (by decide)

/-! ## C10: integer truncation on every inventory write -/

/-- C10: every inventory write sends the quantity truncated toward zero:
the inventory-levels payload carries `int(new_quantity)` both when called
directly and inside the update path, creation sends
`int(safe_float(inventory))`, and truncation is toward zero, so a desired
inventory of `8.7` writes `8` (and `-8.7` writes `-8`). -/
theorem c10_inventory_truncation (loc : ℕ) (ctx : RemoteCtx) (item : ℕ) (q : ℚ)
    (vid : ℕ) (price : Value) (title : String) (sku : Option String) (brand : String) :
    set_inventory_level (some loc) ctx item (.vFloat q)
      = some (ctx.inventorySetStatus == 200,
          [ApiCall.setInventory loc item (pyInt q) ctx.inventorySetStatus])
    ∧ (ctx.variantGetStatus = 200 → ctx.pricePutStatus = 200 →
        ApiCall.setInventory loc ctx.inventoryItemId (pyInt q) ctx.inventorySetStatus
          ∈ (update_product_variant (some loc) ctx vid price (.vFloat q)).2)
    ∧ (create_product ctx title sku price (.vFloat q) brand).map
        (fun x => x.2.inventory_quantity) = some (pyInt q)
    ∧ pyInt (mkRat 87 10) = 8 ∧ pyInt (mkRat (-87) 10) = -8 := by
  refine ⟨rfl, ?_, rfl, by with_unfolding_all decide, by with_unfolding_all decide⟩
  intro h1 h2
  simp [update_product_variant, set_inventory_level, h1, h2, pyIntOfValue]

end WowStore
